import Mathlib

/-!
Shallow embedding of `src/template_parser.rs` (the semantic-analysis and
expression-construction stage of the jj commit-template language), together
with spec-modelled definitions for the external collaborators (the grammar's
syntax tree, the templater's renderer variants, the plain-text formatter and
the record accessor surface), which are not part of the source under
verification.
-/

/-- Node kinds of the syntax tree emitted by the external grammar stage
(`template.pest`); the grammar itself is out of scope and treated as a black
box producing trees of these kinds. -/
inductive Rule where
  | program
  | template
  | term
  | literal
  | raw_literal
  | escape
  | identifier
  | function
  | function_arguments
  | maybe_method
  | EOI
deriving DecidableEq

/-- Modelled from the spec: a syntax-tree node (pest `Pair`) — immutable,
tagged by kind, holding the matched text and an ordered sequence of child
nodes. -/
inductive Pair where
  | mk (rule : Rule) (text : String) (children : List Pair)

/-- The node's kind tag (`Pair::as_rule`). -/
def Pair.rule : Pair → Rule
  | .mk r _ _ => r

/-- The node's matched text (`Pair::as_str`). -/
def Pair.text : Pair → String
  | .mk _ s _ => s

/-- The node's ordered children (`Pair::into_inner`). -/
def Pair.children : Pair → List Pair
  | .mk _ _ cs => cs

/-- The name of a rule, for debug renderings in panic messages. -/
def Rule.name : Rule → String
  | .program => "program"
  | .template => "template"
  | .term => "term"
  | .literal => "literal"
  | .raw_literal => "raw_literal"
  | .escape => "escape"
  | .identifier => "identifier"
  | .function => "function"
  | .function_arguments => "function_arguments"
  | .maybe_method => "maybe_method"
  | .EOI => "EOI"

/-- Modelled from the spec: a rough debug rendering of a node, standing in
for Rust's `{:?}` formatting of a pest `Pair` in panic messages. -/
def Pair.repr (p : Pair) : String :=
  Rule.name p.rule ++ " \"" ++ p.text ++ "\""

/-- Modelled from the spec: a timestamp as supplied by the version-control
backend (consumed as opaque data; only `ago` formatting touches it, via an
external pure function). -/
structure Timestamp where
  millis_since_epoch : Int
  tz_offset : Int
deriving DecidableEq

/-- Modelled from the spec: an authorship record (backend `Signature`)
exposing name, email and timestamp. -/
structure Signature where
  name : String
  email : String
  timestamp : Timestamp
deriving DecidableEq

/-- Modelled from the spec: a commit or change identifier with a highlighted
shortest-unique prefix — a terminal display-only kind with no methods. -/
structure IdWithHighlightedPrefix where
  highlighted : String
  rest : String
deriving DecidableEq

/-- Modelled from the spec: an identifier-kind value supporting `short`,
`shortest_prefix_and_brackets` and `shortest_styled_prefix`; the identifier
resolution itself lives in the external templater and is consumed as data. -/
structure CommitOrChangeId where
  hex : String
  short : String
  shortest_prefix_and_brackets : String
  shortest_styled_prefix : IdWithHighlightedPrefix
deriving DecidableEq

/-- Modelled from the spec: the record type rendered by a template (a
version-control commit), restricted to the accessor surface the templates
consume directly from the commit object. -/
structure Commit where
  description : String
  author : Signature
  committer : Signature
  conflict : Bool
deriving DecidableEq

/-- Modelled from the spec: a workspace identifier (opaque token). -/
abbrev WorkspaceId := String

/-- Modelled from the spec: the read-only record-store handle (`RepoRef`),
represented by the repo-dependent accessors the keyword table consumes. -/
structure RepoRef where
  change_id : Commit → CommitOrChangeId
  commit_id : Commit → CommitOrChangeId
  working_copies : Commit → String
  is_working_copy : WorkspaceId → Commit → Bool
  branches : Commit → String
  tags : Commit → String
  git_refs : Commit → String
  git_head : Commit → String
  divergent : Commit → Bool
  empty : Commit → Bool

/-- A property evaluator `I → O` (boxed `dyn TemplateProperty<I, Output = O>`
in the source); `none` models a render-time panic propagating out of
`extract`. -/
abbrev TemplateProperty (I O : Type) : Type := I → Option O

/-- One segment of rendered output: a run of text together with the style
labels active for it. -/
structure Segment where
  text : String
  labels : List String
deriving DecidableEq

/-- Modelled from the spec: the renderer variants of the external templater
(`Literal`, `LabelTemplate`, `ConditionalTemplate`, `DynamicLabelTemplate`,
`ListTemplate`, `FormattablePropertyTemplate`), as an inductive over the
context type. -/
inductive Template (C : Type) where
  | literal (text : String)
  | label (content : Template C) (labels : List String)
  | conditional (condition : TemplateProperty C Bool)
      (true_template : Template C) (false_template : Option (Template C))
  | dynamicLabel (content : Template C) (label_property : C → Option (List String))
  | list (templates : List (Template C))
  | formatProperty (property : TemplateProperty C String)

mutual

/-- Modelled from the spec: rendering a template against a record under a
stack of active labels, producing labeled output segments; `none` models a
render-time panic. Literal emits its fixed text; Labeled appends its static
labels; Conditional picks a branch by the evaluated condition (nothing when
false and no false-branch); DynamicLabel computes per-record labels and
applies them to its content; List concatenates its children in order;
FormattableProperty emits the property's formatted text. -/
def Template.render : Template C → C → List String → Option (List Segment)
  | .literal s, _, ls => some [⟨s, ls⟩]
  | .label t labels, c, ls => Template.render t c (ls ++ labels)
  | .conditional cond tt (some ft), c, ls =>
      (cond c).bind (fun b => if b then Template.render tt c ls else Template.render ft c ls)
  | .conditional cond tt none, c, ls =>
      (cond c).bind (fun b => if b then Template.render tt c ls else some [])
  | .dynamicLabel t lp, c, ls =>
      (lp c).bind (fun labels => Template.render t c (ls ++ labels))
  | .list ts, c, ls => (Template.renderList ts c ls).map List.flatten
  | .formatProperty p, c, ls => (p c).map (fun s => [⟨s, ls⟩])

/-- Renders a list of templates in order against the same record. -/
def Template.renderList : List (Template C) → C → List String → Option (List (List Segment))
  | [], _, _ => some []
  | t :: ts, c, ls =>
      (Template.render t c ls).bind (fun r => (Template.renderList ts c ls).map (r :: ·))

end

/-- Modelled from the spec: the plain-text sink (`PlainTextFormatter`) —
rendering that honors no labels, concatenating the raw text of every
segment; used by DynamicLabel to compute label tokens. -/
def Template.renderPlain (t : Template C) (c : C) : Option String :=
  (Template.render t c []).map (fun segs => String.join (segs.map Segment.text))

/-- Helper for `rustLines`: walks the characters with the current line
accumulated in reverse; every newline terminates a line (with one carriage
return before it stripped), and a non-empty final piece is a line. -/
def rustLinesAux : List Char → List Char → List String
  | [], [] => []
  | [], acc => [String.mk acc.reverse]
  | c :: cs, acc =>
      if c = '\n' then
        (match acc with
          | '\r' :: rest => String.mk rest.reverse
          | _ => String.mk acc.reverse) :: rustLinesAux cs []
      else rustLinesAux cs (c :: acc)

/-- Rust `str::lines`: lines split at `\n` (also recognizing `\r\n`), a
trailing line ending producing no extra line; the empty string has no
lines. -/
def rustLines (s : String) : List String :=
  rustLinesAux s.data []

/-- Helper for `splitWhitespace`: walks the characters with the current
token accumulated in reverse, emitting it at each whitespace run. -/
def splitWhitespaceAux : List Char → List Char → List String
  | [], [] => []
  | [], acc => [String.mk acc.reverse]
  | c :: cs, acc =>
      if c.isWhitespace then
        match acc with
        | [] => splitWhitespaceAux cs []
        | _ => String.mk acc.reverse :: splitWhitespaceAux cs []
      else splitWhitespaceAux cs (c :: acc)

/-- Rust `str::split_whitespace`: the maximal non-empty runs of
non-whitespace characters, in order. -/
def splitWhitespace (s : String) : List String :=
  splitWhitespaceAux s.data []

/-- Modelled from the spec: the external pure relative-time formatter
(`time_util::format_timestamp_relative_to_now`), out of scope for this core;
represented by a fixed computable function of the timestamp. -/
def format_timestamp_relative_to_now (ts : Timestamp) : String :=
  toString ts.millis_since_epoch ++ " ms ago"

/-- Modelled from the spec: how a Boolean value formats itself when used as
a template (`Template<()> for bool` in the external templater). -/
def formatBool (b : Bool) : String :=
  if b then "true" else "false"

/-- Modelled from the spec: how an identifier value formats itself when used
as a template (the external templater writes its hex form). -/
def formatCommitOrChangeId (id : CommitOrChangeId) : String :=
  id.hex

/-- Modelled from the spec: how a highlighted-prefix identifier formats
itself — the highlighted prefix followed by the rest. -/
def formatIdWithHighlightedPrefix (id : IdWithHighlightedPrefix) : String :=
  id.highlighted ++ id.rest

/-- Modelled from the spec: how an authorship record formats itself when
used as a template (name and email). -/
def formatSignature (s : Signature) : String :=
  s.name ++ " <" ++ s.email ++ ">"

/-- Modelled from the spec: how a timestamp formats itself when used as a
template. -/
def formatTimestamp (ts : Timestamp) : String :=
  toString ts.millis_since_epoch

/-- The closed union of value kinds (`enum Property<'a, I>` in the source):
each variant wraps a typed evaluator from the context type to that kind's
native representation. -/
inductive Property (I : Type) where
  | string (property : TemplateProperty I String)
  | boolean (property : TemplateProperty I Bool)
  | commitOrChangeId (property : TemplateProperty I CommitOrChangeId)
  | idWithHighlightedPrefix (property : TemplateProperty I IdWithHighlightedPrefix)
  | signature (property : TemplateProperty I Signature)
  | timestamp (property : TemplateProperty I Timestamp)

/-- The kind tag of a `Property` (an observer for stating tag preservation;
the tag never changes after construction). -/
inductive PropertyKind where
  | string
  | boolean
  | commitOrChangeId
  | idWithHighlightedPrefix
  | signature
  | timestamp
deriving DecidableEq

/-- Reads off the kind tag of a `Property`. -/
def Property.kind : Property I → PropertyKind
  | .string _ => .string
  | .boolean _ => .boolean
  | .commitOrChangeId _ => .commitOrChangeId
  | .idWithHighlightedPrefix _ => .idWithHighlightedPrefix
  | .signature _ => .signature
  | .timestamp _ => .timestamp

/-- Sequential composition of two evaluators (the inner `chain` of
`Property::after`, i.e. `TemplateFunction::new(first, |v| second.extract(&v))`):
evaluate `first`, then feed its result to `second`; a panic (`none`) in
either stage propagates. -/
def chain (first : TemplateProperty C I) (second : TemplateProperty I O) :
    TemplateProperty C O :=
  fun c => (first c).bind second

/-- `Property::after`: chains `first : C → I` before this property's own
evaluator, producing a property of the same kind over the outer context. -/
def Property.after (second : Property I) (first : TemplateProperty C I) : Property C :=
  match second with
  | .string property => .string (chain first property)
  | .boolean property => .boolean (chain first property)
  | .commitOrChangeId property => .commitOrChangeId (chain first property)
  | .idWithHighlightedPrefix property => .idWithHighlightedPrefix (chain first property)
  | .signature property => .signature (chain first property)
  | .timestamp property => .timestamp (chain first property)

/-- `Property::try_into_boolean`: a String property coerces to Boolean by
"non-empty string is true", a Boolean property is used as-is, and every
other kind yields `none`. -/
def Property.try_into_boolean : Property I → Option (TemplateProperty I Bool)
  | .string property => some (fun c => (property c).map (fun s => !s.isEmpty))
  | .boolean property => some property
  | _ => none

/-- `Property::into_template`: wraps the property as a
`FormattablePropertyTemplate`, formatting its native output with the kind's
own text form. -/
def Property.into_template : Property I → Template I
  | .string property => .formatProperty property
  | .boolean property => .formatProperty (fun c => (property c).map formatBool)
  | .commitOrChangeId property => .formatProperty (fun c => (property c).map formatCommitOrChangeId)
  | .idWithHighlightedPrefix property =>
      .formatProperty (fun c => (property c).map formatIdWithHighlightedPrefix)
  | .signature property => .formatProperty (fun c => (property c).map formatSignature)
  | .timestamp property => .formatProperty (fun c => (property c).map formatTimestamp)

/-- A property together with the style labels accumulated while building it
(`struct PropertyAndLabels<'a, C>`). -/
structure PropertyAndLabels (C : Type) where
  property : Property C
  labels : List String

/-- `PropertyAndLabels::into_template`: no labels yields the bare property
template; otherwise the property template wrapped in a `LabelTemplate`. -/
def PropertyAndLabels.into_template (pl : PropertyAndLabels C) : Template C :=
  if pl.labels.isEmpty then pl.property.into_template
  else .label pl.property.into_template pl.labels

/-- `enum Expression<'a, C>`: either a still-chainable property with labels,
or a fully realized (non-chainable) renderer. -/
inductive Expression (C : Type) where
  | property (pl : PropertyAndLabels C)
  | template (t : Template C)

/-- `Expression::try_into_boolean`: only the property form can coerce, via
`Property::try_into_boolean`; a realized renderer never does. -/
def Expression.try_into_boolean : Expression C → Option (TemplateProperty C Bool)
  | .property pl => pl.property.try_into_boolean
  | .template _ => none

/-- `Expression::into_template`: realizes either form into a renderer. -/
def Expression.into_template : Expression C → Template C
  | .property pl => pl.into_template
  | .template t => t

/-- `Literal(text)`: a property that yields the fixed string for every
context. -/
def Literal (text : String) : TemplateProperty C String :=
  fun _ => some text

/-- The loop body of `parse_string_literal`: concatenates raw parts as-is
and maps the escapes `\"`, `\\`, `\n` to their characters; any other escape
(or malformed part) is a construction-time failure. -/
def parse_string_literal_parts : List Pair → Except String String
  | [] => pure ""
  | part :: rest =>
    match part.rule with
    | .raw_literal => (parse_string_literal_parts rest).map (fun s => part.text ++ s)
    | .escape =>
      match part.text.data.get? 1 with
      | some '"' => (parse_string_literal_parts rest).map (fun s => "\"" ++ s)
      | some '\\' => (parse_string_literal_parts rest).map (fun s => "\\" ++ s)
      | some 'n' => (parse_string_literal_parts rest).map (fun s => "\n" ++ s)
      | some c => .error ("invalid escape: \\" ++ String.mk [c])
      | none => .error "index out of bounds"
    | _ => .error ("unexpected part of string: " ++ part.repr)

/-- `parse_string_literal`: unescapes the parts of a `literal` node into the
literal string. -/
def parse_string_literal (pair : Pair) : Except String String :=
  match pair.rule with
  | .literal => parse_string_literal_parts pair.children
  | _ => .error "assertion failed: expected literal"

/-- `parse_string_method`: the Text dispatch table — `first_line` yields the
first of the receiver's lines (a render-time panic when there is none); any
other name is an unsupported-method failure. -/
def parse_string_method (name : String) (_args : List Pair) :
    Except String (Property String) :=
  match name with
  | "first_line" => .ok (.string (fun s => (rustLines s).head?))
  | name => .error s!"no such string method: {name}"

/-- `parse_boolean_method`: the Boolean dispatch table is empty — every
method name fails. -/
def parse_boolean_method (name : String) (_args : List Pair) :
    Except String (Property Bool) :=
  .error s!"no such boolean method: {name}"

/-- `parse_commit_or_change_id_method`: the identifier dispatch table —
`short` and `shortest_prefix_and_brackets` yield Text,
`shortest_styled_prefix` yields a highlighted identifier. -/
def parse_commit_or_change_id_method (name : String) (_args : List Pair) :
    Except String (Property CommitOrChangeId) :=
  match name with
  | "short" => .ok (.string (fun id => some id.short))
  | "shortest_prefix_and_brackets" =>
      .ok (.string (fun id => some id.shortest_prefix_and_brackets))
  | "shortest_styled_prefix" =>
      .ok (.idWithHighlightedPrefix (fun id => some id.shortest_styled_prefix))
  | name => .error s!"no such commit ID method: {name}"

/-- `parse_signature_method`: the authorship-record dispatch table — `name`,
`email` yield Text and `timestamp` yields a Timestamp; the unknown-method
message is the source's verbatim (copy-pasted) "commit ID" wording. -/
def parse_signature_method (name : String) (_args : List Pair) :
    Except String (Property Signature) :=
  match name with
  | "name" => .ok (.string (fun signature => some signature.name))
  | "email" => .ok (.string (fun signature => some signature.email))
  | "timestamp" => .ok (.timestamp (fun signature => some signature.timestamp))
  | name => .error s!"no such commit ID method: {name}"

/-- `parse_timestamp_method`: the timestamp dispatch table — `ago` delegates
to the external relative-time formatter. -/
def parse_timestamp_method (name : String) (_args : List Pair) :
    Except String (Property Timestamp) :=
  match name with
  | "ago" => .ok (.string (fun ts => some (format_timestamp_relative_to_now ts)))
  | name => .error s!"no such timestamp method: {name}"

/-- `parse_commit_keyword`: the fixed table of named record accessors; the
built property is labeled with the identifier's own text. -/
def parse_commit_keyword (repo : RepoRef) (workspace_id : WorkspaceId) (pair : Pair) :
    Except String (PropertyAndLabels Commit) :=
  match pair.rule with
  | .identifier =>
    match pair.text with
    | "description" => .ok ⟨.string (fun c => some c.description), [pair.text]⟩
    | "change_id" => .ok ⟨.commitOrChangeId (fun c => some (repo.change_id c)), [pair.text]⟩
    | "commit_id" => .ok ⟨.commitOrChangeId (fun c => some (repo.commit_id c)), [pair.text]⟩
    | "author" => .ok ⟨.signature (fun c => some c.author), [pair.text]⟩
    | "committer" => .ok ⟨.signature (fun c => some c.committer), [pair.text]⟩
    | "working_copies" => .ok ⟨.string (fun c => some (repo.working_copies c)), [pair.text]⟩
    | "current_working_copy" =>
        .ok ⟨.boolean (fun c => some (repo.is_working_copy workspace_id c)), [pair.text]⟩
    | "branches" => .ok ⟨.string (fun c => some (repo.branches c)), [pair.text]⟩
    | "tags" => .ok ⟨.string (fun c => some (repo.tags c)), [pair.text]⟩
    | "git_refs" => .ok ⟨.string (fun c => some (repo.git_refs c)), [pair.text]⟩
    | "git_head" => .ok ⟨.string (fun c => some (repo.git_head c)), [pair.text]⟩
    | "divergent" => .ok ⟨.boolean (fun c => some (repo.divergent c)), [pair.text]⟩
    | "conflict" => .ok ⟨.boolean (fun c => some c.conflict), [pair.text]⟩
    | "empty" => .ok ⟨.boolean (fun c => some (repo.empty c)), [pair.text]⟩
    | name => .error s!"unexpected identifier: {name}"
  | _ => .error "assertion failed: expected identifier"

/-- The loop body of `parse_method_chain`: each chained call is dispatched
by the current property's kind, the method's property is chained after the
receiver, and the method name is accumulated onto the labels. -/
def parse_method_chain_go : List Pair → PropertyAndLabels I → Except String (PropertyAndLabels I)
  | [], pl => .ok pl
  | chain :: rest, ⟨property, labels⟩ =>
    match chain with
    | .mk .function _ [.mk .identifier nameText _, .mk .function_arguments _ args] => do
      let labels := labels ++ [nameText]
      let property ← match property with
        | Property.string p => (parse_string_method nameText args).map (fun m => m.after p)
        | Property.boolean p => (parse_boolean_method nameText args).map (fun m => m.after p)
        | Property.commitOrChangeId p =>
            (parse_commit_or_change_id_method nameText args).map (fun m => m.after p)
        | Property.idWithHighlightedPrefix _ =>
            .error "Commit or change ids with styled prefix don't have any methods"
        | Property.signature p => (parse_signature_method nameText args).map (fun m => m.after p)
        | Property.timestamp p => (parse_timestamp_method nameText args).map (fun m => m.after p)
      parse_method_chain_go rest ⟨property, labels⟩
    | _ => .error "assertion failed: malformed method call"

/-- `parse_method_chain`: folds the chained calls of a `maybe_method` node
over the input property. -/
def parse_method_chain (pair : Pair) (input_property : PropertyAndLabels I) :
    Except String (PropertyAndLabels I) :=
  match pair.rule with
  | .maybe_method => parse_method_chain_go pair.children input_property
  | _ => .error "assertion failed: expected maybe_method"

mutual

/-- `parse_commit_term`: interprets one `term` node — a literal becomes an
unlabeled Text property, an identifier is looked up in the keyword table, a
`label`/`if` function call builds a realized renderer (any other function
name fails as unimplemented), and a nested template recurses; the trailing
`maybe_method` chain is applied to the chainable cases. -/
def parse_commit_term (repo : RepoRef) (workspace_id : WorkspaceId) :
    Pair → Except String (Expression Commit)
  | .mk .term _ [expr, mm] =>
    match expr with
    | .mk .literal lt parts => do
        let text ← parse_string_literal (.mk .literal lt parts)
        let pl ← parse_method_chain mm ⟨.string (Literal text), []⟩
        pure (.property pl)
    | .mk .identifier it ich => do
        let keyword ← parse_commit_keyword repo workspace_id (.mk .identifier it ich)
        let pl ← parse_method_chain mm keyword
        pure (.property pl)
    | .mk .function _ [.mk .identifier nameText _, .mk .function_arguments _ args] =>
      (match nameText, args with
        | "label", [] => .error "called `Option::unwrap()` on a `None` value"
        | "label", label_pair :: rest => do
            let label_expr ← parse_commit_template_rule repo workspace_id label_pair
            let label_template := label_expr.into_template
            match rest with
            | [] => .error "label() requires two arguments"
            | arg_template :: rest2 =>
              match rest2 with
              | _ :: _ => .error "label() accepts only two arguments"
              | [] => do
                let content_expr ← parse_commit_template_rule repo workspace_id arg_template
                let content := content_expr.into_template
                let get_labels := fun (commit : Commit) =>
                  (Template.renderPlain label_template commit).map splitWhitespace
                pure (.template (.dynamicLabel content get_labels))
        | "if", [] => .error "called `Option::unwrap()` on a `None` value"
        | "if", condition_pair :: rest => do
            let condition_expr ← parse_commit_template_rule repo workspace_id condition_pair
            match condition_expr.try_into_boolean with
            | none => .error ("cannot yet use this as boolean: " ++ condition_pair.repr)
            | some condition =>
              match rest with
              | [] => .error "if() requires at least two arguments"
              | true_pair :: rest2 => do
                let true_expr ← parse_commit_template_rule repo workspace_id true_pair
                let true_template := true_expr.into_template
                match rest2 with
                | [] => pure (.template (.conditional condition true_template none))
                | false_pair :: rest3 => do
                  let false_expr ← parse_commit_template_rule repo workspace_id false_pair
                  match rest3 with
                  | [] =>
                      pure (.template
                        (.conditional condition true_template (some false_expr.into_template)))
                  | _ => .error "if() accepts at most three arguments"
        | name, _ => .error s!"function {name} not implemented")
    | .mk .function _ _ => .error "assertion failed: malformed function call"
    | .mk .template tt tch => parse_commit_template_rule repo workspace_id (.mk .template tt tch)
    | other => .error ("unexpected term: " ++ other.repr)
  | _ => .error "assertion failed: expected term"

/-- `parse_commit_template_rule`: builds each child term's Expression; with
exactly one child it is returned unchanged, otherwise every Expression is
realized and wrapped as a `ListTemplate` concatenation. -/
def parse_commit_template_rule (repo : RepoRef) (workspace_id : WorkspaceId) :
    Pair → Except String (Expression Commit)
  | .mk .template _ children => do
      let expressions ← parse_commit_terms repo workspace_id children
      match expressions with
      | [e] => pure e
      | es => pure (.template (.list (es.map Expression.into_template)))
  | _ => .error "assertion failed: expected template"

/-- The term-collection loop of `parse_commit_template_rule`. -/
def parse_commit_terms (repo : RepoRef) (workspace_id : WorkspaceId) :
    List Pair → Except String (List (Expression Commit))
  | [] => pure []
  | p :: ps => do
      let e ← parse_commit_term repo workspace_id p
      let es ← parse_commit_terms repo workspace_id ps
      pure (e :: es)

end

/-- `parse_commit_template`: the construction entry point over the output of
the external grammar stage — an empty program (first node end-of-input)
yields a zero-length Literal renderer; otherwise the single top-level
template node is reduced and realized. -/
def parse_commit_template (repo : RepoRef) (workspace_id : WorkspaceId) :
    List Pair → Except String (Template Commit)
  | [] => .error "called `Option::unwrap()` on a `None` value"
  | first_pair :: _ =>
      if first_pair.rule = Rule.EOI then
        pure (.literal "")
      else
        (parse_commit_template_rule repo workspace_id first_pair).map Expression.into_template

/-- A raw (escape-free) part of a literal node. -/
def rawPart (s : String) : Pair :=
  .mk .raw_literal s []

/-- An escape part of a literal node; the text is the matched source slice,
backslash included. -/
def escapePart (s : String) : Pair :=
  .mk .escape s []

/-- An empty trailing method chain. -/
def noMethod : Pair :=
  .mk .maybe_method "" []

/-- A chained method call of the given name with the given argument
nodes. -/
def methodCall (name : String) (args : List Pair) : Pair :=
  .mk .function "" [.mk .identifier name [], .mk .function_arguments "" args]

/-- A term holding a string literal with the given parts and no trailing
methods. -/
def literalTerm (parts : List Pair) : Pair :=
  .mk .term "" [.mk .literal "" parts, noMethod]

/-- A term holding the identifier keyword `name`, with the given trailing
method chain. -/
def keywordTerm (name : String) (methods : List Pair) : Pair :=
  .mk .term "" [.mk .identifier name [], .mk .maybe_method "" methods]

/-- A template node whose single term is the string literal `s`. -/
def strTemplate (s : String) : Pair :=
  .mk .template s [literalTerm [rawPart s]]

/-- A term holding a call of the function `name` with the given argument
nodes and no trailing methods. -/
def functionTerm (name : String) (args : List Pair) : Pair :=
  .mk .term "" [methodCall name args, noMethod]

/-- A fixed repo handle for concrete evaluations. -/
def sampleId : CommitOrChangeId :=
  ⟨"0123abcd", "0123", "012[3abcd]", ⟨"012", "3abcd"⟩⟩

/-- A fixed repo handle for concrete evaluations. -/
def sampleRepo : RepoRef where
  change_id := fun _ => sampleId
  commit_id := fun _ => sampleId
  working_copies := fun _ => ""
  is_working_copy := fun _ _ => false
  branches := fun _ => ""
  tags := fun _ => ""
  git_refs := fun _ => ""
  git_head := fun _ => ""
  divergent := fun _ => false
  empty := fun _ => false

/-- A fixed commit for concrete evaluations. -/
def sampleCommit : Commit :=
  ⟨"summary line\nbody", ⟨"Ann", "ann@example.net", ⟨10, 0⟩⟩,
    ⟨"Bob", "bob@example.net", ⟨20, 0⟩⟩, false⟩

theorem parse_if_step2 (repo : RepoRef) (ws : WorkspaceId) (condP tP : Pair) :
    parse_commit_term repo ws (functionTerm "if" [condP, tP]) =
      (do
        let ce ← parse_commit_template_rule repo ws condP
        match ce.try_into_boolean with
        | none => .error ("cannot yet use this as boolean: " ++ condP.repr)
        | some condition => do
            let te ← parse_commit_template_rule repo ws tP
            pure (.template (.conditional condition te.into_template none))) := rfl

theorem parse_if_step3 (repo : RepoRef) (ws : WorkspaceId) (condP tP fP : Pair) :
    parse_commit_term repo ws (functionTerm "if" [condP, tP, fP]) =
      (do
        let ce ← parse_commit_template_rule repo ws condP
        match ce.try_into_boolean with
        | none => .error ("cannot yet use this as boolean: " ++ condP.repr)
        | some condition => do
            let te ← parse_commit_template_rule repo ws tP
            let fe ← parse_commit_template_rule repo ws fP
            pure (.template
              (.conditional condition te.into_template (some fe.into_template)))) := rfl

theorem parse_label_step0 (repo : RepoRef) (ws : WorkspaceId) :
    parse_commit_term repo ws (functionTerm "label" []) =
      .error "called `Option::unwrap()` on a `None` value" := rfl

theorem parse_label_step1 (repo : RepoRef) (ws : WorkspaceId) (xP : Pair) :
    parse_commit_term repo ws (functionTerm "label" [xP]) =
      (do
        let _ ← parse_commit_template_rule repo ws xP
        (.error "label() requires two arguments" : Except String (Expression Commit))) := rfl

theorem parse_label_step2 (repo : RepoRef) (ws : WorkspaceId) (xP yP : Pair) :
    parse_commit_term repo ws (functionTerm "label" [xP, yP]) =
      (do
        let lexp ← parse_commit_template_rule repo ws xP
        let cexp ← parse_commit_template_rule repo ws yP
        pure (.template (.dynamicLabel cexp.into_template
          (fun commit =>
            (Template.renderPlain lexp.into_template commit).map splitWhitespace)))) := rfl

theorem parse_label_step3 (repo : RepoRef) (ws : WorkspaceId) (xP yP zP : Pair)
    (rest : List Pair) :
    parse_commit_term repo ws (functionTerm "label" (xP :: yP :: zP :: rest)) =
      (do
        let _ ← parse_commit_template_rule repo ws xP
        (.error "label() accepts only two arguments" : Except String (Expression Commit))) := rfl

theorem ok_bind {ε α β : Type} (a : α) (f : α → Except ε β) :
    (Except.ok a >>= f) = f a := rfl

theorem bind_ok_eq {ε α β : Type} (a : α) (f : α → Except ε β) :
    (Except.ok a).bind f = f a := rfl

theorem parse_rule_cons (repo : RepoRef) (ws : WorkspaceId) (s : String) (ts : List Pair) :
    parse_commit_template_rule repo ws (.mk .template s ts) =
      (parse_commit_terms repo ws ts).bind (fun es =>
        match es with
        | [e] => pure e
        | es => pure (.template (.list (es.map Expression.into_template)))) := rfl

theorem parse_terms_nil (repo : RepoRef) (ws : WorkspaceId) :
    parse_commit_terms repo ws [] = .ok [] := rfl

theorem parse_terms_cons (repo : RepoRef) (ws : WorkspaceId) (p : Pair) (ps : List Pair) :
    parse_commit_terms repo ws (p :: ps) =
      (do
        let e ← parse_commit_term repo ws p
        let es ← parse_commit_terms repo ws ps
        pure (e :: es)) := rfl

theorem parse_terms_length (repo : RepoRef) (ws : WorkspaceId) :
    ∀ (ts : List Pair) (es : List (Expression Commit)),
      parse_commit_terms repo ws ts = .ok es → es.length = ts.length := by
  intro ts
  induction ts with
  | nil => intro es h; cases h; rfl
  | cons p ps ih =>
    intro es h
    rw [parse_terms_cons] at h
    cases hp : parse_commit_term repo ws p with
    | error e => rw [hp] at h; cases h
    | ok e =>
      rw [hp, ok_bind] at h
      cases hps : parse_commit_terms repo ws ps with
      | error e2 => rw [hps] at h; cases h
      | ok es2 =>
        rw [hps, ok_bind] at h
        cases h
        simpa using ih es2 hps

/-- C9: the composition combinator `Property::after` produces a property of
the same kind tag as the second value, whose evaluator on any context first
runs `first` and then feeds its result to the second evaluator (panics
propagating); the composed evaluator is itself a function, applied to
nothing until given a concrete context. -/
theorem property_after_composition :
    ∀ (C I : Type) (first : TemplateProperty C I),
      (∀ f, (Property.string f).after first = .string (fun c => (first c).bind f))
    ∧ (∀ f, (Property.boolean f).after first = .boolean (fun c => (first c).bind f))
    ∧ (∀ f, (Property.commitOrChangeId f).after first
          = .commitOrChangeId (fun c => (first c).bind f))
    ∧ (∀ f, (Property.idWithHighlightedPrefix f).after first
          = .idWithHighlightedPrefix (fun c => (first c).bind f))
    ∧ (∀ f, (Property.signature f).after first = .signature (fun c => (first c).bind f))
    ∧ (∀ f, (Property.timestamp f).after first = .timestamp (fun c => (first c).bind f))
    ∧ (∀ p : Property I, (p.after first).kind = p.kind) := by
  intro C I first
  refine ⟨fun f => rfl, fun f => rfl, fun f => rfl, fun f => rfl, fun f => rfl, fun f => rfl, ?_⟩
  intro p
  cases p <;> rfl

/-- C8: invoking any method, whatever its name and argument list, on a
HighlightedRecordIdentifier-kind value fails construction unconditionally
with the styled-prefix panic message. -/
theorem highlighted_id_methods_always_fail :
    ∀ (f : TemplateProperty Commit IdWithHighlightedPrefix) (labels : List String)
      (s ft nameText at2 : String) (nch margs rest : List Pair),
      parse_method_chain
          (.mk .maybe_method s
            (.mk .function ft
              [.mk .identifier nameText nch, .mk .function_arguments at2 margs] :: rest))
          ⟨.idWithHighlightedPrefix f, labels⟩
        = .error "Commit or change ids with styled prefix don't have any methods" := by
  intro f labels s ft nameText at2 nch margs rest
  rfl

/-- C10: a template node with zero child terms builds to a concatenation
renderer over an empty list, which emits nothing for every record; it is a
different renderer from the zero-length Literal of an empty program, and as
a realized renderer it cannot be coerced to a boolean condition. -/
theorem zero_term_template_concatenation :
    (∀ (repo : RepoRef) (ws : WorkspaceId) (s : String),
        parse_commit_template_rule repo ws (.mk .template s [])
          = .ok (.template (.list ([] : List (Template Commit)))))
  ∧ (∀ (c : Commit) (ls : List String),
        Template.render (Template.list ([] : List (Template Commit))) c ls = some [])
  ∧ (∀ c : Commit,
        Template.renderPlain (Template.list ([] : List (Template Commit))) c = some "")
  ∧ Template.list ([] : List (Template Commit)) ≠ Template.literal ""
  ∧ Expression.try_into_boolean
      (.template (Template.list ([] : List (Template Commit)))) = none := by
  refine ⟨fun repo ws s => rfl, fun c ls => rfl, fun c => rfl, ?_, rfl⟩
  intro h
  exact Template.noConfusion h

/-- C5 (code evaluated at the failing input): the dispatch tables reject an
unknown method with a message naming the method, but the authorship-record
(signature) table's message names the commit ID kind, not the signature
kind — while the Boolean table's message does name the boolean kind. -/
theorem signature_method_error_message :
    parse_signature_method "foo" [] = .error "no such commit ID method: foo"
  ∧ parse_boolean_method "foo" [] = .error "no such boolean method: foo"
  ∧ parse_string_method "foo" [] = .error "no such string method: foo"
  ∧ parse_timestamp_method "foo" [] = .error "no such timestamp method: foo"
  ∧ parse_commit_or_change_id_method "foo" [] = .error "no such commit ID method: foo" := by
  exact ⟨rfl, rfl, rfl, rfl, rfl⟩

/-- C7: a program whose first parsed node is end-of-input yields the
zero-length Literal renderer, which emits zero-length output for every
record; otherwise the first (template) node is reduced and realized. -/
theorem empty_program_zero_literal :
    (∀ (repo : RepoRef) (ws : WorkspaceId) (p : Pair) (rest : List Pair),
        p.rule = Rule.EOI →
        parse_commit_template repo ws (p :: rest) = .ok (.literal ""))
  ∧ (∀ (c : Commit) (ls : List String),
        Template.render (Template.literal "") c ls = some [⟨"", ls⟩])
  ∧ (∀ c : Commit, Template.renderPlain (Template.literal "") c = some "")
  ∧ (∀ (repo : RepoRef) (ws : WorkspaceId) (p : Pair) (rest : List Pair),
        p.rule ≠ Rule.EOI →
        parse_commit_template repo ws (p :: rest)
          = (parse_commit_template_rule repo ws p).map Expression.into_template) := by
  refine ⟨?_, fun c ls => rfl, fun c => rfl, ?_⟩
  · intro repo ws p rest h
    simp only [parse_commit_template, h, if_pos]
    rfl
  · intro repo ws p rest h
    simp [parse_commit_template, h]

/-- C7 witness: the theorem applied to a concrete end-of-input program and a
concrete record. -/
theorem empty_program_zero_literal_witness :
    parse_commit_template sampleRepo "ws" [.mk .EOI "" []] = .ok (.literal "")
  ∧ Template.renderPlain (Template.literal "") sampleCommit = some "" :=
  ⟨empty_program_zero_literal.1 sampleRepo "ws" (.mk .EOI "" []) [] rfl,
   empty_program_zero_literal.2.2.1 sampleCommit⟩

/-- C6: the Text method `first_line` builds a Text-kind value whose
evaluation yields the first of the receiver's lines whenever at least one
line exists; on a string with zero lines the render-time evaluation fails
(yields `none`), and under the at-least-one-line precondition that failing
branch is unreachable. -/
theorem first_line_method :
    ∀ (args : List Pair) (f : TemplateProperty String String),
      parse_string_method "first_line" args = .ok (.string f) →
        (∀ (s l : String) (ls : List String), rustLines s = l :: ls → f s = some l)
      ∧ (∀ s : String, rustLines s = [] → f s = none) := by
  intro args f hf
  have h0 : parse_string_method "first_line" args
      = .ok (.string (fun s => (rustLines s).head?)) := rfl
  rw [h0] at hf
  have hf2 : f = fun s => (rustLines s).head? :=
    (Property.string.inj (Except.ok.inj hf)).symm
  refine ⟨?_, ?_⟩
  · intro s l ls h
    rw [hf2]
    show (rustLines s).head? = some l
    rw [h]
    rfl
  · intro s h
    rw [hf2]
    show (rustLines s).head? = none
    rw [h]
    rfl

/-- C6 witness: the theorem applied at empty arguments to the evaluator the
method actually builds, at the concrete strings "summary line\nbody" (first
line extracted) and "" (render-time failure). -/
theorem first_line_method_witness :
    parse_string_method "first_line" []
      = .ok (.string (fun s => (rustLines s).head?))
  ∧ (rustLines "summary line\nbody").head? = some "summary line"
  ∧ (rustLines "").head? = none := by
  refine ⟨rfl, ?_, ?_⟩
  · exact (first_line_method [] (fun s => (rustLines s).head?) rfl).1
      "summary line\nbody" "summary line" ["body"] (by decide)
  · exact (first_line_method [] (fun s => (rustLines s).head?) rfl).2 "" (by decide)

/-- C1: a Text-kind condition coerces to Boolean as "true iff the evaluated
string is non-empty", a Boolean-kind condition is used as-is, any other kind
or a realized renderer does not coerce, and building `if(...)` succeeds
(producing a Conditional renderer) exactly when the condition coerces,
failing at construction time otherwise. -/
theorem if_condition_coercion :
    (∀ (f : TemplateProperty Commit String),
        (Property.string f).try_into_boolean
          = some (fun c => (f c).map (fun s => !s.isEmpty)))
  ∧ (∀ (f : TemplateProperty Commit Bool), (Property.boolean f).try_into_boolean = some f)
  ∧ (∀ (p : Property Commit),
        p.kind ≠ .string → p.kind ≠ .boolean → p.try_into_boolean = none)
  ∧ (∀ (t : Template Commit), (Expression.template t).try_into_boolean = none)
  ∧ (∀ (repo : RepoRef) (ws : WorkspaceId) (condP tP : Pair) (e : Expression Commit),
        parse_commit_template_rule repo ws condP = .ok e →
        e.try_into_boolean = none →
        parse_commit_term repo ws (functionTerm "if" [condP, tP])
          = .error ("cannot yet use this as boolean: " ++ condP.repr))
  ∧ (∀ (repo : RepoRef) (ws : WorkspaceId) (condP tP : Pair) (e et : Expression Commit)
        (b : TemplateProperty Commit Bool),
        parse_commit_template_rule repo ws condP = .ok e →
        e.try_into_boolean = some b →
        parse_commit_template_rule repo ws tP = .ok et →
        parse_commit_term repo ws (functionTerm "if" [condP, tP])
          = .ok (.template (.conditional b et.into_template none)))
  ∧ (∀ (repo : RepoRef) (ws : WorkspaceId) (condP tP fP : Pair) (e et ef : Expression Commit)
        (b : TemplateProperty Commit Bool),
        parse_commit_template_rule repo ws condP = .ok e →
        e.try_into_boolean = some b →
        parse_commit_template_rule repo ws tP = .ok et →
        parse_commit_template_rule repo ws fP = .ok ef →
        parse_commit_term repo ws (functionTerm "if" [condP, tP, fP])
          = .ok (.template (.conditional b et.into_template (some ef.into_template)))) := by
  refine ⟨fun f => rfl, fun f => rfl, ?_, fun t => rfl, ?_, ?_, ?_⟩
  · intro p h1 h2
    cases p with
    | string f => exact absurd rfl h1
    | boolean f => exact absurd rfl h2
    | commitOrChangeId f => rfl
    | idWithHighlightedPrefix f => rfl
    | signature f => rfl
    | timestamp f => rfl
  · intro repo ws condP tP e h1 h2
    rw [parse_if_step2, h1, ok_bind, h2]
  · intro repo ws condP tP e et b h1 h2 h3
    rw [parse_if_step2, h1, ok_bind, h2, h3]
    rfl
  · intro repo ws condP tP fP e et ef b h1 h2 h3 h4
    rw [parse_if_step3, h1, ok_bind, h2, h3, h4]
    rfl

/-- C1 witness: the theorem applied to concrete condition terms — a Text
literal condition (coerces) and an author-keyword condition (signature kind,
fails). -/
theorem if_condition_coercion_witness :
    (Property.signature (fun (c : Commit) => some c.author)).kind ≠ PropertyKind.string
  ∧ parse_commit_term sampleRepo "ws"
      (functionTerm "if" [strTemplate "x", strTemplate "y"])
      = .ok (.template (.conditional
          (fun (c : Commit) => (Literal "x" c).map (fun (s : String) => !s.isEmpty))
          (Expression.into_template (.property ⟨.string (Literal "y"), []⟩)) none))
  ∧ parse_commit_term sampleRepo "ws"
      (functionTerm "if"
        [.mk .template "author" [keywordTerm "author" []], strTemplate "y"])
      = .error ("cannot yet use this as boolean: "
          ++ Pair.repr (.mk .template "author" [keywordTerm "author" []])) := by
  refine ⟨by decide, ?_, ?_⟩
  · exact if_condition_coercion.2.2.2.2.2.1 sampleRepo "ws" (strTemplate "x") (strTemplate "y")
      (.property ⟨.string (Literal "x"), []⟩)
      (.property ⟨.string (Literal "y"), []⟩)
      (fun (c : Commit) => (Literal "x" c).map (fun (s : String) => !s.isEmpty))
      rfl rfl rfl
  · exact if_condition_coercion.2.2.2.2.1 sampleRepo "ws"
      (.mk .template "author" [keywordTerm "author" []]) (strTemplate "y")
      (.property ⟨.signature (fun (c : Commit) => some c.author), ["author"]⟩)
      rfl rfl

/-- C2: `label(X, Y)` construction fails unless exactly two arguments are
given (zero, one, or three-or-more arguments all fail), and with two
arguments it builds a DynamicLabel renderer whose per-record label set is
the whitespace tokenization of X's output rendered to the plain-text sink,
and which renders Y's content under those labels. -/
theorem label_function_semantics :
    (∀ (repo : RepoRef) (ws : WorkspaceId),
        parse_commit_term repo ws (functionTerm "label" [])
          = .error "called `Option::unwrap()` on a `None` value")
  ∧ (∀ (repo : RepoRef) (ws : WorkspaceId) (xP : Pair) (ex : Expression Commit),
        parse_commit_template_rule repo ws xP = .ok ex →
        parse_commit_term repo ws (functionTerm "label" [xP])
          = .error "label() requires two arguments")
  ∧ (∀ (repo : RepoRef) (ws : WorkspaceId) (xP yP zP : Pair) (rest : List Pair)
        (ex : Expression Commit),
        parse_commit_template_rule repo ws xP = .ok ex →
        parse_commit_term repo ws (functionTerm "label" (xP :: yP :: zP :: rest))
          = .error "label() accepts only two arguments")
  ∧ (∀ (repo : RepoRef) (ws : WorkspaceId) (xP yP : Pair) (ex ey : Expression Commit),
        parse_commit_template_rule repo ws xP = .ok ex →
        parse_commit_template_rule repo ws yP = .ok ey →
        parse_commit_term repo ws (functionTerm "label" [xP, yP])
          = .ok (.template (.dynamicLabel ey.into_template
              (fun commit =>
                (Template.renderPlain ex.into_template commit).map splitWhitespace))))
  ∧ (∀ (content : Template Commit) (gl : Commit → Option (List String))
        (c : Commit) (ls : List String),
        Template.render (.dynamicLabel content gl) c ls
          = (gl c).bind (fun labels => Template.render content c (ls ++ labels))) := by
  refine ⟨fun repo ws => parse_label_step0 repo ws, ?_, ?_, ?_, fun content gl c ls => rfl⟩
  · intro repo ws xP ex h1
    rw [parse_label_step1, h1, ok_bind]
  · intro repo ws xP yP zP rest ex h1
    rw [parse_label_step3, h1, ok_bind]
  · intro repo ws xP yP ex ey h1 h2
    rw [parse_label_step2, h1, ok_bind, h2, ok_bind]
    rfl

/-- C2 witness: the theorem applied to concrete literal arguments; the
constructed renderer's label set for the sample commit is the whitespace
tokenization of the rendered first argument. -/
theorem label_function_semantics_witness :
    parse_commit_term sampleRepo "ws" (functionTerm "label" [strTemplate "a"])
      = .error "label() requires two arguments"
  ∧ parse_commit_term sampleRepo "ws"
      (functionTerm "label" [strTemplate "a b", strTemplate "c"])
      = .ok (.template (.dynamicLabel
          (Expression.into_template (.property ⟨.string (Literal "c"), []⟩))
          (fun commit =>
            (Template.renderPlain
              (Expression.into_template (.property ⟨.string (Literal "a b"), []⟩))
              commit).map splitWhitespace))) := by
  constructor
  · exact label_function_semantics.2.1 sampleRepo "ws" (strTemplate "a")
      (.property ⟨.string (Literal "a"), []⟩) rfl
  · exact label_function_semantics.2.2.2.1 sampleRepo "ws" (strTemplate "a b") (strTemplate "c")
      (.property ⟨.string (Literal "a b"), []⟩)
      (.property ⟨.string (Literal "c"), []⟩) rfl rfl

/-- C3: a template node with exactly one child term builds to that term's
Expression unchanged (so a value stays chainable); with more than one child
it builds to a realized concatenation renderer over the children's realized
renderers, which renders them in source order against the same record, and
which is never boolean-coercible. -/
theorem template_node_reduction :
    (∀ (repo : RepoRef) (ws : WorkspaceId) (s : String) (t : Pair) (e : Expression Commit),
        parse_commit_term repo ws t = .ok e →
        parse_commit_template_rule repo ws (.mk .template s [t]) = .ok e)
  ∧ (∀ (repo : RepoRef) (ws : WorkspaceId) (s : String) (ts : List Pair)
        (es : List (Expression Commit)),
        parse_commit_terms repo ws ts = .ok es →
        2 ≤ ts.length →
        parse_commit_template_rule repo ws (.mk .template s ts)
          = .ok (.template (.list (es.map Expression.into_template))))
  ∧ (∀ (l : List (Template Commit)) (c : Commit) (ls : List String),
        Template.render (Template.list l) c ls
          = (Template.renderList l c ls).map List.flatten)
  ∧ (∀ (t : Template Commit) (ts : List (Template Commit)) (c : Commit) (ls : List String),
        Template.renderList (t :: ts) c ls
          = (Template.render t c ls).bind
              (fun r => (Template.renderList ts c ls).map (r :: ·)))
  ∧ (∀ l : List (Template Commit),
        Expression.try_into_boolean (.template (.list l)) = none) := by
  refine ⟨?_, ?_, fun l c ls => rfl, fun t ts c ls => rfl, fun l => rfl⟩
  · intro repo ws s t e h
    rw [parse_rule_cons, parse_terms_cons, h, ok_bind, parse_terms_nil, ok_bind]
    rfl
  · intro repo ws s ts es h hlen
    rw [parse_rule_cons, h, bind_ok_eq]
    have hl : es.length = ts.length := parse_terms_length repo ws ts es h
    match es, hl with
    | [], hl => rw [← hl] at hlen; simp at hlen
    | [e], hl => rw [← hl] at hlen; simp at hlen
    | e1 :: e2 :: es2, hl => rfl

/-- C3 witness: the theorem applied to a concrete one-term template and a
concrete three-term template. -/
theorem template_node_reduction_witness :
    parse_commit_template_rule sampleRepo "ws" (.mk .template "" [literalTerm [rawPart "x"]])
      = .ok (.property ⟨.string (Literal "x"), []⟩)
  ∧ parse_commit_template_rule sampleRepo "ws"
      (.mk .template ""
        [literalTerm [rawPart "a"], literalTerm [rawPart "b"], literalTerm [rawPart "c"]])
      = .ok (.template (.list
          ([.property (C := Commit) ⟨.string (Literal "a"), []⟩,
            .property ⟨.string (Literal "b"), []⟩,
            .property ⟨.string (Literal "c"), []⟩].map Expression.into_template))) := by
  constructor
  · exact template_node_reduction.1 sampleRepo "ws" "" (literalTerm [rawPart "x"])
      (.property ⟨.string (Literal "x"), []⟩) rfl
  · exact template_node_reduction.2.1 sampleRepo "ws" ""
      [literalTerm [rawPart "a"], literalTerm [rawPart "b"], literalTerm [rawPart "c"]]
      [.property ⟨.string (Literal "a"), []⟩,
        .property ⟨.string (Literal "b"), []⟩,
        .property ⟨.string (Literal "c"), []⟩] rfl (by decide)

/-- C4: unescaping a literal node concatenates raw parts verbatim and maps
the escapes `\"`, `\\` and `\n` to double-quote, backslash and newline, in
order; any other escape sequence fails construction; and a successfully
unescaped literal term becomes a Text value with no labels. -/
theorem string_literal_unescaping :
    (∀ t : String, parse_string_literal (.mk .literal t []) = .ok "")
  ∧ (∀ (t s : String) (parts : List Pair),
        parse_string_literal (.mk .literal t (rawPart s :: parts))
          = (parse_string_literal (.mk .literal t parts)).map (fun r => s ++ r))
  ∧ (∀ (t : String) (parts : List Pair),
        parse_string_literal (.mk .literal t (escapePart "\\\"" :: parts))
          = (parse_string_literal (.mk .literal t parts)).map (fun r => "\"" ++ r))
  ∧ (∀ (t : String) (parts : List Pair),
        parse_string_literal (.mk .literal t (escapePart "\\\\" :: parts))
          = (parse_string_literal (.mk .literal t parts)).map (fun r => "\\" ++ r))
  ∧ (∀ (t : String) (parts : List Pair),
        parse_string_literal (.mk .literal t (escapePart "\\n" :: parts))
          = (parse_string_literal (.mk .literal t parts)).map (fun r => "\n" ++ r))
  ∧ (∀ (t : String) (c : Char) (parts : List Pair),
        c ≠ '"' → c ≠ '\\' → c ≠ 'n' →
        parse_string_literal (.mk .literal t (escapePart (String.mk ['\\', c]) :: parts))
          = .error ("invalid escape: \\" ++ String.mk [c]))
  ∧ (∀ (repo : RepoRef) (ws : WorkspaceId) (t u text : String) (parts : List Pair),
        parse_string_literal (.mk .literal t parts) = .ok text →
        parse_commit_term repo ws (.mk .term u [.mk .literal t parts, noMethod])
          = .ok (.property ⟨.string (Literal text), []⟩)) := by
  refine ⟨fun t => rfl, fun t s parts => rfl, fun t parts => rfl, fun t parts => rfl,
    fun t parts => rfl, ?_, ?_⟩
  · intro t c parts h1 h2 h3
    show parse_string_literal_parts (escapePart (String.mk ['\\', c]) :: parts)
      = .error ("invalid escape: \\" ++ String.mk [c])
    unfold parse_string_literal_parts
    split <;> simp_all [escapePart, Pair.rule, Pair.text]
  · intro repo ws t u text parts h
    show (do
        let text ← parse_string_literal (.mk .literal t parts)
        let pl ← parse_method_chain noMethod ⟨.string (Literal text), []⟩
        pure (Expression.property pl))
      = .ok (.property ⟨.string (Literal text), []⟩)
    rw [h, ok_bind]
    rfl

/-- C4 witness: the theorem applied to the concrete escapes of `"a\n"` and
to the invalid escape `\q`. -/
theorem string_literal_unescaping_witness :
    parse_string_literal (.mk .literal "" [rawPart "a", escapePart "\\n"])
      = .ok "a\n"
  ∧ parse_string_literal (.mk .literal "" [escapePart (String.mk ['\\', 'q'])])
      = .error ("invalid escape: \\" ++ String.mk ['q'])
  ∧ parse_commit_term sampleRepo "ws"
      (.mk .term "" [.mk .literal "" [rawPart "a", escapePart "\\n"], noMethod])
      = .ok (.property ⟨.string (Literal "a\n"), []⟩) := by
  refine ⟨?_, ?_, ?_⟩
  · have h := string_literal_unescaping.2.1 "" "a" [escapePart "\\n"]
    rw [string_literal_unescaping.2.2.2.2.1 "" []] at h
    simpa using h
  · exact string_literal_unescaping.2.2.2.2.2.1 "" 'q' []
      (by decide) (by decide) (by decide)
  · exact string_literal_unescaping.2.2.2.2.2.2 sampleRepo "ws" "" "" "a\n"
      [rawPart "a", escapePart "\\n"] rfl
